import Mathlib

/-!
Verification of the devbar/sweetlink repository's connection state machine and
command handlers against its specification.

Shallow embeddings:
* `handleGetLogs` is translated from
  `packages/sweetlink/src/browser/commands/logs.ts`.
* `handleRequestScreenshot` and `sendAndReturn` are translated from the browser
  screenshot command handler (`browser/commands/screenshot.ts`).
* `CLAUDE_PRICING` is translated from the Anthropic client module
  (`server/anthropic.ts`).
* The bridge connection state machine, `handleExecJS`, `generateSlugFromUrl`
  and the design-review cost formatting are modelled from the specification,
  because `SweetlinkBridge.ts` / `websocket.ts`, `browser/commands/exec.ts`,
  `urlUtils.ts` and `server/handlers/designReview.ts` are absent from the
  available sources (only their test files are present).

JavaScript strings are modelled as Lean `String`, arrays as `List`, machine
numbers as `Nat` (no overflow is relevant to any claim), `undefined`/missing
fields as `Option`, and thrown exceptions as explicit outcome constructors.
-/

/-- Character-list version of JavaScript `String.prototype.startsWith`. -/
def startsWithChars : List Char → List Char → Bool
  | [], _ => true
  | _ :: _, [] => false
  | a :: as, b :: bs => a == b && startsWithChars as bs

/-- Character-list version of JavaScript `String.prototype.includes`:
`containsChars sub l` decides whether `sub` occurs contiguously in `l`. -/
def containsChars (sub : List Char) : List Char → Bool
  | [] => sub.isEmpty
  | c :: cs => startsWithChars sub (c :: cs) || containsChars sub cs

/-- JavaScript `s.includes(sub)` on Lean strings. -/
def strIncludes (s sub : String) : Bool :=
  containsChars sub.data s.data

/-- JavaScript `s.toLowerCase()`: character-wise lowering (all strings in the
claims are ASCII, where the two coincide). -/
def lowerStr (s : String) : String :=
  String.mk (s.data.map Char.toLower)

/-- ConsoleLog entry, translated from `types.ts` (`stack`/`source` optional
fields are omitted: no claim mentions them). -/
structure ConsoleLog where
  level : String
  message : String
  timestamp : Nat
deriving Repr, DecidableEq

/-- The `get-logs` command payload fields used by `handleGetLogs`
(`command.filter` is an optional string). -/
structure GetLogsCommand where
  filter : Option String
deriving Repr, DecidableEq

/-- The `data` payload that `handleGetLogs` builds. -/
structure GetLogsData where
  logs : List ConsoleLog
  totalCount : Nat
  filteredCount : Nat
deriving Repr, DecidableEq

/-- The response that `handleGetLogs` returns (always `success: true`). -/
structure GetLogsResponse where
  success : Bool
  data : GetLogsData
  timestamp : Nat
deriving Repr, DecidableEq

/-- The filter predicate from `logs.ts`:
`log.level === filterLower || log.message.toLowerCase().includes(filterLower)`. -/
def logMatchesFilter (filterLower : String) (log : ConsoleLog) : Bool :=
  log.level == filterLower || strIncludes (lowerStr log.message) filterLower

/-- Translated from `browser/commands/logs.ts` `handleGetLogs`. The JavaScript
`if (command.filter)` truthiness test skips filtering both when `filter` is
absent and when it is the empty string; `Date.now()` is the `now` parameter. -/
def handleGetLogs (command : GetLogsCommand) (consoleLogs : List ConsoleLog)
    (now : Nat) : GetLogsResponse :=
  let logs := consoleLogs
  let logs :=
    match command.filter with
    | some f =>
        if f ≠ "" then logs.filter (logMatchesFilter (lowerStr f)) else logs
    | none => logs
  { success := true
    data :=
      { logs := logs
        totalCount := consoleLogs.length
        filteredCount := logs.length }
    timestamp := now }

/-- The filter predicate in the words of the specification: an entry is kept
when its level equals the lowercased filter or its lowercased message contains
the lowercased filter; every entry is kept when no filter is given. -/
def specLogMatches (filter : Option String) (log : ConsoleLog) : Bool :=
  match filter with
  | none => true
  | some f =>
      log.level == lowerStr f || strIncludes (lowerStr log.message) (lowerStr f)

/-- The four-entry buffer of the end-to-end scenario: 1 error, 1 warn, 2 log. -/
def demoErrorLog : ConsoleLog := { level := "error", message := "boom", timestamp := 2 }

/-- The remaining three entries of the scenario buffer. -/
def demoBuffer : List ConsoleLog :=
  [ { level := "log", message := "first", timestamp := 1 }
  , demoErrorLog
  , { level := "warn", message := "careful", timestamp := 3 }
  , { level := "log", message := "second", timestamp := 4 } ]

/-- A JavaScript array value, identified by its heap slot. -/
structure ArrayRef where
  id : Nat
deriving Repr, DecidableEq

/-- A heap of console-log arrays: slot `i < nextId` holds an allocated array.
Used to make the aliasing behaviour of `handleGetLogs` explicit. -/
structure LogStore where
  nextId : Nat
  heap : Nat → List ConsoleLog

/-- Allocate a fresh array holding `l` (the semantics of a JavaScript array
literal or spread). -/
def allocArray (σ : LogStore) (l : List ConsoleLog) : ArrayRef × LogStore :=
  (⟨σ.nextId⟩, ⟨σ.nextId + 1, fun i => if i = σ.nextId then l else σ.heap i⟩)

/-- The `data` payload of the store-passing rendition of `handleGetLogs`. -/
structure GetLogsDataRef where
  logs : ArrayRef
  totalCount : Nat
  filteredCount : Nat
deriving Repr, DecidableEq

/-- The response of the store-passing rendition of `handleGetLogs`. -/
structure GetLogsResponseRef where
  success : Bool
  data : GetLogsDataRef
  timestamp : Nat
deriving Repr, DecidableEq

/-- `handleGetLogs` again, with JavaScript array aliasing made explicit:
`let logs = [...consoleLogs]` allocates a fresh array, and `logs.filter(...)`
allocates another fresh array. Mirrors `browser/commands/logs.ts` line by
line over the explicit heap. -/
def handleGetLogsRef (command : GetLogsCommand) (consoleLogs : ArrayRef)
    (σ : LogStore) (now : Nat) : GetLogsResponseRef × LogStore :=
  let alloc0 := allocArray σ (σ.heap consoleLogs.id)
  let logs0 := alloc0.1
  let σ1 := alloc0.2
  let step :=
    match command.filter with
    | some f =>
        if f ≠ "" then
          allocArray σ1 ((σ1.heap logs0.id).filter (logMatchesFilter (lowerStr f)))
        else (logs0, σ1)
    | none => (logs0, σ1)
  let logsRef := step.1
  let σ2 := step.2
  ({ success := true
     data :=
       { logs := logsRef
         totalCount := (σ2.heap consoleLogs.id).length
         filteredCount := (σ2.heap logsRef.id).length }
     timestamp := now }, σ2)

/-- The fields of a `request-screenshot` command used by the handler,
translated from `types.ts` (all optional on the wire). -/
structure RequestScreenshotCommand where
  selector : Option String
  requestId : Option String
  includeMetadata : Option Bool
deriving Repr, DecidableEq

/-- Browser viewport dimensions recorded in the optional response metadata. -/
structure ScreenshotViewport where
  width : Nat
  height : Nat
deriving Repr, DecidableEq

/-- The `responseData` object built by `handleRequestScreenshot`: the scaled
canvas encoding plus optional metadata. -/
structure ScreenshotData where
  screenshot : String
  width : Nat
  height : Nat
  selector : String
  url : Option String
  timestampMs : Option Nat
  viewport : Option ScreenshotViewport
deriving Repr, DecidableEq

/-- The `SweetlinkResponse` returned by the screenshot handler. -/
structure ScreenshotResponse where
  success : Bool
  data : Option ScreenshotData
  error : Option String
  timestamp : Nat
deriving Repr, DecidableEq

/-- The `wsResponse` frame built by `sendAndReturn`: the response plus the
`type`/`requestId` envelope. -/
structure ScreenshotFrame where
  type : String
  requestId : Option String
  success : Bool
  data : Option ScreenshotData
  error : Option String
  timestamp : Nat
deriving Repr, DecidableEq

/-- Result of the externally-owned capture pipeline (html2canvas, canvas
scaling, data-URL encoding), already combined into the encoded image. -/
structure CanvasResult where
  dataUrl : String
  width : Nat
  height : Nat
deriving Repr, DecidableEq

/-- Outcome of running the capture pipeline: it returns a canvas, throws an
`Error` (whose `message` is kept), or throws a non-`Error` value. -/
inductive CaptureOutcome where
  | ok (canvas : CanvasResult)
  | errorThrown (message : String)
  | nonErrorThrown
deriving Repr, DecidableEq

/-- The browser environment `handleRequestScreenshot` reads:
`document.querySelector` success, the capture pipeline outcome,
`window.location.href`, the inner viewport size, and whether the WebSocket
argument is non-null. -/
structure ScreenshotEnv where
  elementFound : Bool
  capture : CaptureOutcome
  locationHref : String
  innerWidth : Nat
  innerHeight : Nat
  wsPresent : Bool
deriving Repr, DecidableEq

/-- Translated from `browser/commands/screenshot.ts` `sendAndReturn`: builds
the timestamped response, sends it with the `screenshot-response` envelope
when a socket is present (`ws?.send`), and returns the response. The first
component is the list of frames sent over the socket. -/
def sendAndReturn (wsPresent : Bool) (requestId : Option String) (success : Bool)
    (data : Option ScreenshotData) (error : Option String) (now : Nat) :
    List ScreenshotFrame × ScreenshotResponse :=
  let wsResponse : ScreenshotFrame :=
    { type := "screenshot-response", requestId := requestId, success := success
      data := data, error := error, timestamp := now }
  ((if wsPresent then [wsResponse] else []),
   { success := success, data := data, error := error, timestamp := now })

/-- Translated from `browser/commands/screenshot.ts` `handleRequestScreenshot`:
element lookup, capture with try/catch, metadata attachment (skipped only when
`includeMetadata === false`), and every exit through `sendAndReturn`. -/
def handleRequestScreenshot (env : ScreenshotEnv)
    (command : RequestScreenshotCommand) (now : Nat) :
    List ScreenshotFrame × ScreenshotResponse :=
  if !env.elementFound then
    sendAndReturn env.wsPresent command.requestId false none
      (some ("Element not found: " ++ command.selector.getD "undefined")) now
  else
    match env.capture with
    | .errorThrown msg =>
        sendAndReturn env.wsPresent command.requestId false none (some msg) now
    | .nonErrorThrown =>
        sendAndReturn env.wsPresent command.requestId false none
          (some "Screenshot failed") now
    | .ok canvas =>
        let base : ScreenshotData :=
          { screenshot := canvas.dataUrl, width := canvas.width
            height := canvas.height, selector := command.selector.getD "body"
            url := none, timestampMs := none, viewport := none }
        let responseData :=
          if command.includeMetadata ≠ some false then
            { base with
                url := some env.locationHref
                timestampMs := some now
                viewport := some ⟨env.innerWidth, env.innerHeight⟩ }
          else base
        sendAndReturn env.wsPresent command.requestId true (some responseData) none now

/-- Per-million-token price table, translated from `server/anthropic.ts`
(`CLAUDE_PRICING`). -/
structure ClaudePricing where
  input : Nat
  output : Nat
deriving Repr, DecidableEq

/-- Approximate pricing (per million tokens), from `server/anthropic.ts`. -/
def CLAUDE_PRICING : ClaudePricing := { input := 15, output := 75 }

/-- Left-pad a fractional part to four digits. -/
def padFrac4 (n : Nat) : String :=
  let s := toString n
  String.mk (List.replicate (4 - s.length) '0') ++ s

/-- Modelled from the spec: `server/handlers/designReview.ts` is absent from
the sources. Cost of `tokens` at `pricePerMillion` dollars per million tokens,
in ten-thousandths of a dollar (four decimal places, rounded half up):
`tokens * price / 10^6` dollars equals `tokens * price / 100` ten-thousandths. -/
def costTenThousandths (tokens pricePerMillion : Nat) : Nat :=
  (tokens * pricePerMillion + 50) / 100

/-- Render ten-thousandths of a dollar as a dollar string with four decimals. -/
def formatTenThousandths (c : Nat) : String :=
  "$" ++ toString (c / 10000) ++ "." ++ padFrac4 (c % 10000)

/-- Modelled from the spec: the design-review report's per-direction cost
string, token usage times the per-million price, formatted to four decimals. -/
def formatCost (tokens pricePerMillion : Nat) : String :=
  formatTenThousandths (costTenThousandths tokens pricePerMillion)

/-- Token usage reported by the chat-completion API. -/
structure TokenUsage where
  input_tokens : Nat
  output_tokens : Nat
deriving Repr, DecidableEq

/-- Modelled from the spec: the design-review report's total cost string, the
sum of the input and output costs formatted to four decimals. -/
def totalCostString (usage : TokenUsage) (pricing : ClaudePricing) : String :=
  formatTenThousandths
    (costTenThousandths usage.input_tokens pricing.input +
      costTenThousandths usage.output_tokens pricing.output)

/-- The `server-info` frame, translated from `types.ts` (`appPort = null`
means "accept any app"). -/
structure BridgeServerInfo where
  appPort : Option Nat
  wsPort : Nat
  projectDir : String
  timestampMs : Nat
deriving Repr, DecidableEq

/-- A task a bridge timer can be armed with: the fast retry on the next
sequential candidate port, or the exponential-backoff reconnect. -/
inductive TimerTask where
  | connectNextPort (port : Nat)
  | reconnectBackoff
deriving Repr, DecidableEq

/-- Frames the bridge sends over its socket. -/
inductive WireFrame where
  | browserClientReady
  | response (success : Bool) (error : Option String)
deriving Repr, DecidableEq

/-- Side effects a bridge transition requests; they are returned as data so
the transition functions stay pure. -/
inductive BridgeEffect where
  | openSocket (port : Nat)
  | closeSocket
  | send (frame : WireFrame)
  | runHandler (cmdType : String)
  | schedule (delayMs : Nat) (task : TimerTask)
  | cancelTimer
  | notifyListeners
deriving Repr, DecidableEq

/-- Modelled from the spec: the bridge connection state of `SweetlinkBridge.ts`
and `modules/websocket.ts`, both absent from the sources. `ws` holds the port
of the currently owned socket, `appPort` the page's own application port, and
`candidatePort` the WebSocket port currently being tried. -/
structure BridgeState where
  destroyed : Bool
  ws : Option Nat
  wsVerified : Bool
  connected : Bool
  serverInfo : Option BridgeServerInfo
  reconnectAttempts : Nat
  appPort : Nat
  candidatePort : Nat
  pendingTimer : Option TimerTask
deriving Repr, DecidableEq

/-- Fixed delay before retrying the next sequential port on a mismatch. -/
def PORT_RETRY_DELAY_MS : Nat := 100

/-- Base interval seeding the exponential reconnect backoff. -/
def BASE_RECONNECT_DELAY_MS : Nat := 1000

/-- Cap on the exponential reconnect delay. -/
def MAX_RECONNECT_DELAY_MS : Nat := 30000

/-- Maximum number of backoff reconnect attempts. -/
def MAX_RECONNECT_ATTEMPTS : Nat := 10

/-- Modelled from the spec: exponential-backoff delay before reconnect attempt
`n + 1`, seeded at the base interval and capped. -/
def reconnectDelay (n : Nat) : Nat :=
  min (BASE_RECONNECT_DELAY_MS * 2 ^ n) MAX_RECONNECT_DELAY_MS

/-- A fresh bridge state, before `init()` has ever been called. -/
def mkBridgeState (appPort basePort : Nat) : BridgeState :=
  { destroyed := false, ws := none, wsVerified := false, connected := false
    serverInfo := none, reconnectAttempts := 0, appPort := appPort
    candidatePort := basePort, pendingTimer := none }

/-- Modelled from the spec: `init()` is idempotent and begins connecting; an
already-owned socket is kept and no second one is opened. -/
def bridgeInit (st : BridgeState) : BridgeState × List BridgeEffect :=
  if st.destroyed then (st, [])
  else
    match st.ws with
    | some _ => (st, [])
    | none =>
        ({ st with ws := some st.candidatePort },
         [.openSocket st.candidatePort])

/-- Modelled from the spec: on socket open the bridge immediately sends
`browser-client-ready`. -/
def bridgeHandleOpen (st : BridgeState) : BridgeState × List BridgeEffect :=
  (st, [.send .browserClientReady])

/-- Modelled from the spec: on `server-info`, a `null` or matching `appPort`
verifies the connection (store `projectDir`, reset the attempt counter, notify
listeners); a non-matching port closes this socket and schedules a connection
to the next sequential port after a short fixed delay. -/
def bridgeHandleServerInfo (st : BridgeState) (info : BridgeServerInfo) :
    BridgeState × List BridgeEffect :=
  if info.appPort = none ∨ info.appPort = some st.appPort then
    ({ st with
        wsVerified := true
        connected := true
        serverInfo := some info
        reconnectAttempts := 0 },
     [.notifyListeners])
  else
    ({ st with
        ws := none
        candidatePort := st.candidatePort + 1
        pendingTimer := some (.connectNextPort (st.candidatePort + 1)) },
     [.closeSocket,
      .schedule PORT_RETRY_DELAY_MS (.connectNextPort (st.candidatePort + 1))])

/-- An inbound WebSocket message as the bridge classifies it: a `server-info`
frame, a command frame (with its `type` string, and whether a handler for that
type exists), or text that fails to parse as JSON. -/
inductive InboundMsg where
  | serverInfo (info : BridgeServerInfo)
  | command (cmdType : String) (known : Bool)
  | malformed (parseError : String)
deriving Repr, DecidableEq

/-- Whether an inbound message is a `server-info` frame. -/
def InboundMsg.isServerInfo : InboundMsg → Bool
  | .serverInfo _ => true
  | _ => false

/-- Modelled from the spec: the bridge's `onmessage`. Commands received before
verification are silently dropped, never dispatched; after verification known
commands run their handler and a response is sent, unknown types get an
`Unknown command` error response, and malformed JSON gets a parse-error
response. -/
def bridgeHandleMessage (st : BridgeState) (m : InboundMsg) :
    BridgeState × List BridgeEffect :=
  match m with
  | .serverInfo info => bridgeHandleServerInfo st info
  | .command cmdType known =>
      if st.wsVerified then
        (st,
         if known then
           [.runHandler cmdType, .send (.response true none)]
         else
           [.send (.response false (some ("Unknown command: " ++ cmdType)))])
      else (st, [])
  | .malformed parseError =>
      if st.wsVerified then
        (st, [.send (.response false (some parseError))])
      else (st, [])

/-- Modelled from the spec: the bridge's `onclose`. A destroyed bridge does
nothing further; close code 4001 (origin mismatch) triggers a fast retry on
the next port; a close of a socket that had verified clears the flags,
notifies listeners and schedules a backoff reconnect while under the attempt
cap; a close of a never-verified socket schedules no backoff reconnect. -/
def bridgeHandleClose (st : BridgeState) (code : Option Nat) :
    BridgeState × List BridgeEffect :=
  if st.destroyed then
    ({ st with ws := none, wsVerified := false, connected := false }, [])
  else if code = some 4001 then
    ({ st with
        ws := none
        wsVerified := false
        connected := false
        candidatePort := st.candidatePort + 1
        pendingTimer := some (.connectNextPort (st.candidatePort + 1)) },
     [.schedule PORT_RETRY_DELAY_MS (.connectNextPort (st.candidatePort + 1))])
  else if st.wsVerified then
    let cleared :=
      { st with
          ws := none
          wsVerified := false
          connected := false
          serverInfo := none }
    if st.reconnectAttempts < MAX_RECONNECT_ATTEMPTS then
      ({ cleared with
          reconnectAttempts := st.reconnectAttempts + 1
          pendingTimer := some .reconnectBackoff },
       [.notifyListeners,
        .schedule (reconnectDelay st.reconnectAttempts) .reconnectBackoff])
    else (cleared, [.notifyListeners])
  else
    ({ st with ws := none, connected := false }, [])

/-- Modelled from the spec: `destroy()` closes the socket if one is open,
cancels a pending timer if one is armed, and clears the verified state; it is
total on every state, including fresh and already-destroyed ones. -/
def bridgeDestroy (st : BridgeState) : BridgeState × List BridgeEffect :=
  let cancelEffs : List BridgeEffect :=
    match st.pendingTimer with
    | some _ => [.cancelTimer]
    | none => []
  let closeEffs : List BridgeEffect :=
    match st.ws with
    | some _ => [.closeSocket]
    | none => []
  ({ destroyed := true
     ws := none
     wsVerified := false
     connected := false
     serverInfo := none
     reconnectAttempts := st.reconnectAttempts
     appPort := st.appPort
     candidatePort := st.candidatePort
     pendingTimer := none },
   cancelEffs ++ closeEffs)

/-- Public accessor `isConnected()`. -/
def bridgeIsConnected (st : BridgeState) : Bool := st.connected

/-- Public accessor `getServerInfo()`. -/
def bridgeGetServerInfo (st : BridgeState) : Option BridgeServerInfo :=
  st.serverInfo

/-- Socket events delivered to the bridge. -/
inductive BridgeEvent where
  | socketOpen
  | msg (m : InboundMsg)
  | socketClose (code : Option Nat)
deriving Repr, DecidableEq

/-- One bridge transition step. -/
def bridgeStep (st : BridgeState) : BridgeEvent → BridgeState × List BridgeEffect
  | .socketOpen => bridgeHandleOpen st
  | .msg m => bridgeHandleMessage st m
  | .socketClose code => bridgeHandleClose st code

/-- Run a sequence of events, accumulating all requested effects in order. -/
def bridgeRun (st : BridgeState) : List BridgeEvent → BridgeState × List BridgeEffect
  | [] => (st, [])
  | e :: es =>
      let step := bridgeStep st e
      let rest := bridgeRun step.1 es
      (rest.1, step.2 ++ rest.2)

/-- The frames sent over the socket among a list of effects. -/
def sentFrames (effs : List BridgeEffect) : List WireFrame :=
  effs.filterMap fun e =>
    match e with
    | .send f => some f
    | _ => none

/-- The command handlers dispatched among a list of effects. -/
def handlersRun (effs : List BridgeEffect) : List String :=
  effs.filterMap fun e =>
    match e with
    | .runHandler t => some t
    | _ => none

/-- The timer tasks scheduled among a list of effects. -/
def scheduledTasks (effs : List BridgeEffect) : List (Nat × TimerTask) :=
  effs.filterMap fun e =>
    match e with
    | .schedule d t => some (d, t)
    | _ => none

/-- A JavaScript value, to the granularity `typeof` and the claims need. -/
inductive JsValue where
  | undef
  | nullVal
  | boolVal (b : Bool)
  | numberVal (text : String)
  | strVal (s : String)
  | objectVal
  | arrayVal
  | functionVal
deriving Repr, DecidableEq

/-- JavaScript `typeof`. -/
def jsTypeof : JsValue → String
  | .undef => "undefined"
  | .nullVal => "object"
  | .boolVal _ => "boolean"
  | .numberVal _ => "number"
  | .strVal _ => "string"
  | .objectVal => "object"
  | .arrayVal => "object"
  | .functionVal => "function"

/-- Outcome of evaluating a JavaScript expression: a value, a thrown `Error`
(whose `message` is kept), or a thrown non-`Error` value. -/
inductive EvalOutcome where
  | ok (value : JsValue)
  | errorThrown (message : String)
  | nonErrorThrown
deriving Repr, DecidableEq

/-- The `code` field of an `exec-js` command as it arrives over the wire:
absent, present but not a string, or a string. -/
inductive CodeField where
  | missing
  | nonString
  | strCode (code : String)
deriving Repr, DecidableEq

/-- The `data` payload of a successful `exec-js`: the result and its
`typeof`. -/
structure ExecJsResult where
  result : JsValue
  type : String
deriving Repr, DecidableEq

/-- The response `handleExecJS` returns. -/
structure ExecJsResponse where
  success : Bool
  data : Option ExecJsResult
  error : Option String
  timestamp : Nat
deriving Repr, DecidableEq

/-- Fixed length cap on `exec-js` code. -/
def MAX_CODE_LENGTH : Nat := 10000

/-- Modelled from the spec: `browser/commands/exec.ts` is absent from the
sources. Validation order: missing `code`, non-string `code`, over-length
`code`, then evaluation (abstracted by `evalJs`) with the documented
error-message translation of thrown values. -/
def handleExecJS (evalJs : String → EvalOutcome) (code : CodeField)
    (now : Nat) : ExecJsResponse :=
  match code with
  | .missing =>
      { success := false, data := none, error := some "Code is required"
        timestamp := now }
  | .nonString =>
      { success := false, data := none, error := some "Code must be a string"
        timestamp := now }
  | .strCode s =>
      if s.length > MAX_CODE_LENGTH then
        { success := false, data := none
          error := some "Code exceeds maximum length (10000)", timestamp := now }
      else
        match evalJs s with
        | .ok v =>
            { success := true
              data := some { result := v, type := jsTypeof v }
              error := none, timestamp := now }
        | .errorThrown msg =>
            { success := false, data := none, error := some msg
              timestamp := now }
        | .nonErrorThrown =>
            { success := false, data := none, error := some "Execution failed"
              timestamp := now }

/-- Maximum slug length (from the spec and `urlUtils.test.ts`). -/
def MAX_SLUG_LENGTH : Nat := 50

/-- Drop every leading and trailing occurrence of `c`. -/
def trimCharList (c : Char) (l : List Char) : List Char :=
  ((l.dropWhile (· == c)).reverse.dropWhile (· == c)).reverse

/-- Collapse each run of consecutive dashes to a single dash. -/
def collapseDashes : List Char → List Char
  | [] => []
  | [c] => [c]
  | a :: b :: rest =>
      if a = '-' && b = '-' then collapseDashes (b :: rest)
      else a :: collapseDashes (b :: rest)

/-- Modelled from the spec: the pathname of a URL whose authority has been
removed — the query/hash is stripped and the path starts at the first slash
after the host, defaulting to the root path. -/
def extractPathChars (afterScheme : List Char) : List Char :=
  let noQuery := afterScheme.takeWhile fun c => c != '?' && c != '#'
  match noQuery.dropWhile (fun c => c != '/') with
  | [] => ['/']
  | path => path

/-- Modelled from the spec: URL parsing as `generateSlugFromUrl` needs it. A
URL is parseable when it carries an http or https scheme; its pathname is then
extracted, and any other input is unparseable. -/
def parseUrlPathname (url : String) : Option (List Char) :=
  if startsWithChars "http://".data url.data then
    some (extractPathChars (url.data.drop 7))
  else if startsWithChars "https://".data url.data then
    some (extractPathChars (url.data.drop 8))
  else none

/-- Modelled from the spec: slug from a URL pathname — strip surrounding
slashes, lowercase, slashes to dashes, drop other non-alphanumerics, collapse
consecutive separators, truncate, and fall back to `index` for the root. -/
def pathToSlug (path : List Char) : String :=
  let trimmed := trimCharList '/' path
  let dashed := trimmed.map fun c => if c = '/' then '-' else c.toLower
  let cleaned := dashed.filter fun c => c.isAlphanum || c == '-'
  let truncated := (collapseDashes cleaned).take MAX_SLUG_LENGTH
  if truncated.isEmpty then "index" else String.mk truncated

/-- Modelled from the spec: slug from a page title — lowercase, every
non-alphanumeric run becomes one dash, surrounding dashes stripped, truncated,
with `page` as the fallback when nothing remains. -/
def titleToSlug (title : String) : String :=
  let dashed := title.data.map fun c => if c.isAlphanum then c.toLower else '-'
  let trimmed := trimCharList '-' (collapseDashes dashed)
  let truncated := trimmed.take MAX_SLUG_LENGTH
  if truncated.isEmpty then "page" else String.mk truncated

/-- Modelled from the spec: `urlUtils.ts` is absent from the sources.
`generateSlugFromUrl` derives a filesystem-safe slug from the URL's path, or
from the page title when the URL is unparseable, or the fixed fallback
`page`. -/
def generateSlugFromUrl (url : String) (title : Option String) : String :=
  match parseUrlPathname url with
  | some path => pathToSlug path
  | none =>
      match title with
      | some t => titleToSlug t
      | none => "page"

theorem strIncludes_empty_right (s : String) : strIncludes s "" = true := by
  unfold strIncludes
  cases s.data with
  | nil => rfl
  | cons c cs => simp [containsChars, startsWithChars]

theorem lowerStr_empty : lowerStr "" = "" := rfl

/-- C6: for every console-log buffer and every `get-logs` command,
`handleGetLogs` succeeds with `totalCount` the full buffer length, `logs`
exactly the entries whose level equals the lowercased filter or whose
lowercased message contains the lowercased filter (all entries when no filter
is given), `filteredCount` the length of `logs`; and on the scenario buffer of
4 logs (1 error, 1 warn, 2 log) the filter `error` yields the single error
entry with `totalCount` 4 and `filteredCount` 1. -/
theorem get_logs_filter_correct (command : GetLogsCommand)
    (consoleLogs : List ConsoleLog) (now : Nat) :
    (handleGetLogs command consoleLogs now).success = true ∧
    (handleGetLogs command consoleLogs now).data.totalCount
      = consoleLogs.length ∧
    (handleGetLogs command consoleLogs now).data.logs
      = consoleLogs.filter (specLogMatches command.filter) ∧
    (handleGetLogs command consoleLogs now).data.filteredCount
      = (handleGetLogs command consoleLogs now).data.logs.length ∧
    handleGetLogs { filter := some "error" } demoBuffer now
      = { success := true
          data := { logs := [demoErrorLog], totalCount := 4, filteredCount := 1 }
          timestamp := now } := by
  refine ⟨rfl, rfl, ?_, rfl, rfl⟩
  cases hf : command.filter with
  | none =>
      have hR : consoleLogs.filter (specLogMatches none) = consoleLogs := by
        rw [List.filter_eq_self]
        intro log _
        rfl
      simp [handleGetLogs, hf, hR]
  | some f =>
      by_cases hfe : f = ""
      · subst hfe
        have hR : consoleLogs.filter (specLogMatches (some "")) = consoleLogs := by
          rw [List.filter_eq_self]
          intro log _
          simp [specLogMatches, lowerStr_empty, strIncludes_empty_right]
        simp [handleGetLogs, hf, hR]
      · have hP : logMatchesFilter (lowerStr f) = specLogMatches (some f) := rfl
        simp [handleGetLogs, hf, hfe, hP]

/-- C10: `handleGetLogs` is read-only with respect to the console-log buffer:
the buffer's heap slot is unchanged by the call, the returned `logs` array is
a freshly allocated array distinct from the buffer, and its entries are a
subsequence of the buffer's entries in their original order. -/
theorem get_logs_read_only (command : GetLogsCommand) (buf : ArrayRef)
    (σ : LogStore) (now : Nat) (h : buf.id < σ.nextId) :
    (handleGetLogsRef command buf σ now).2.heap buf.id = σ.heap buf.id ∧
    (handleGetLogsRef command buf σ now).1.data.logs.id ≠ buf.id ∧
    ((handleGetLogsRef command buf σ now).2.heap
        (handleGetLogsRef command buf σ now).1.data.logs.id).Sublist
      (σ.heap buf.id) := by
  have hb0 : buf.id ≠ σ.nextId := by omega
  have hb1 : buf.id ≠ σ.nextId + 1 := by omega
  cases hf : command.filter with
  | none =>
      refine ⟨?_, ?_, ?_⟩
      · simp [handleGetLogsRef, allocArray, hf, hb0]
      · simp [handleGetLogsRef, allocArray, hf]
        omega
      · simp [handleGetLogsRef, allocArray, hf]
  | some f =>
      by_cases hfe : f = ""
      · subst hfe
        refine ⟨?_, ?_, ?_⟩
        · simp [handleGetLogsRef, allocArray, hf, hb0]
        · simp [handleGetLogsRef, allocArray, hf]
          omega
        · simp [handleGetLogsRef, allocArray, hf]
      · refine ⟨?_, ?_, ?_⟩
        · simp [handleGetLogsRef, allocArray, hf, hfe, hb0, hb1]
        · simp [handleGetLogsRef, allocArray, hf, hfe]
          omega
        · simp [handleGetLogsRef, allocArray, hf, hfe, hb0, hb1]

/-- C10 witness: a concrete one-array store. -/
theorem get_logs_read_only_witness :
    ((handleGetLogsRef { filter := some "error" } ⟨0⟩ ⟨1, fun _ => demoBuffer⟩ 7).2.heap 0
        = demoBuffer) ∧
    (handleGetLogsRef { filter := some "error" } ⟨0⟩ ⟨1, fun _ => demoBuffer⟩ 7).1.data.logs.id ≠ 0 ∧
    ((handleGetLogsRef { filter := some "error" } ⟨0⟩ ⟨1, fun _ => demoBuffer⟩ 7).2.heap
        (handleGetLogsRef { filter := some "error" } ⟨0⟩ ⟨1, fun _ => demoBuffer⟩ 7).1.data.logs.id).Sublist
      demoBuffer :=
  get_logs_read_only { filter := some "error" } ⟨0⟩ ⟨1, fun _ => demoBuffer⟩ 7
    (by decide)

/-- C7: for every `request-screenshot` command the handler sends exactly one
frame over the WebSocket, of type `screenshot-response`, carrying the
command's `requestId`, in the success, capture-failure and element-not-found
outcomes alike; and the returned response equals that frame minus the
`type`/`requestId` envelope. -/
theorem request_screenshot_proactive_send (env : ScreenshotEnv)
    (command : RequestScreenshotCommand) (now : Nat)
    (h : env.wsPresent = true) :
    (handleRequestScreenshot env command now).1 =
      [{ type := "screenshot-response"
         requestId := command.requestId
         success := (handleRequestScreenshot env command now).2.success
         data := (handleRequestScreenshot env command now).2.data
         error := (handleRequestScreenshot env command now).2.error
         timestamp := (handleRequestScreenshot env command now).2.timestamp }] := by
  unfold handleRequestScreenshot sendAndReturn
  cases henv : env.elementFound <;> cases hc : env.capture <;> simp [h]

/-- C7 witness: a concrete successful capture. -/
theorem request_screenshot_proactive_send_witness :
    (handleRequestScreenshot
        ⟨true, .ok ⟨"data-url", 100, 80⟩, "http://localhost:3000/", 800, 600, true⟩
        ⟨some "#app", some "req-1", none⟩ 5).1 =
      [{ type := "screenshot-response"
         requestId := some "req-1"
         success := (handleRequestScreenshot
            ⟨true, .ok ⟨"data-url", 100, 80⟩, "http://localhost:3000/", 800, 600, true⟩
            ⟨some "#app", some "req-1", none⟩ 5).2.success
         data := (handleRequestScreenshot
            ⟨true, .ok ⟨"data-url", 100, 80⟩, "http://localhost:3000/", 800, 600, true⟩
            ⟨some "#app", some "req-1", none⟩ 5).2.data
         error := (handleRequestScreenshot
            ⟨true, .ok ⟨"data-url", 100, 80⟩, "http://localhost:3000/", 800, 600, true⟩
            ⟨some "#app", some "req-1", none⟩ 5).2.error
         timestamp := (handleRequestScreenshot
            ⟨true, .ok ⟨"data-url", 100, 80⟩, "http://localhost:3000/", 800, 600, true⟩
            ⟨some "#app", some "req-1", none⟩ 5).2.timestamp }] :=
  request_screenshot_proactive_send
    ⟨true, .ok ⟨"data-url", 100, 80⟩, "http://localhost:3000/", 800, 600, true⟩
    ⟨some "#app", some "req-1", none⟩ 5 rfl

/-- C9: under the fixed pricing table (15 input / 75 output dollars per
million tokens), usage of 1000 input and 500 output tokens formats as
`$0.0150`, `$0.0375` and a `$0.0525` total; and in general the displayed
four-decimal amount is `tokens * price / 10^6` dollars up to the half-up
rounding of the last decimal place. -/
theorem design_review_cost_strings :
    formatCost 1000 CLAUDE_PRICING.input = "$0.0150" ∧
    formatCost 500 CLAUDE_PRICING.output = "$0.0375" ∧
    totalCostString { input_tokens := 1000, output_tokens := 500 } CLAUDE_PRICING
      = "$0.0525" ∧
    CLAUDE_PRICING.input = 15 ∧
    CLAUDE_PRICING.output = 75 ∧
    ∀ tokens price : Nat,
      100 * costTenThousandths tokens price ≤ tokens * price + 50 ∧
      tokens * price ≤ 100 * costTenThousandths tokens price + 49 := by
  refine ⟨by decide, by decide, by decide, rfl, rfl, ?_⟩
  intro tokens price
  unfold costTenThousandths
  omega

/-- C8: `generateSlugFromUrl` maps a parseable URL to its lowercased path with
slashes replaced by dashes and other non-alphanumerics removed, truncated to
at most 50 characters; the root path yields `index`; an unparseable URL falls
back to the slugified title, or to `page` without one. -/
theorem slug_round_trip :
    generateSlugFromUrl "https://x.com/docs/getting-started" none
      = "docs-getting-started" ∧
    generateSlugFromUrl "https://x.com/" none = "index" ∧
    generateSlugFromUrl "not-a-valid-url" (some "My Page Title")
      = "my-page-title" ∧
    generateSlugFromUrl "not-a-valid-url" none = "page" ∧
    ∀ url title, (generateSlugFromUrl url title).length ≤ MAX_SLUG_LENGTH := by
  refine ⟨by decide, by decide, by decide, by decide, ?_⟩
  intro url title
  have key : ∀ (l : List Char) (fb : String), fb.length ≤ MAX_SLUG_LENGTH →
      (if (List.take MAX_SLUG_LENGTH l).isEmpty = true then fb
        else String.mk (List.take MAX_SLUG_LENGTH l)).length ≤ MAX_SLUG_LENGTH := by
    intro l fb hfb
    by_cases he : (List.take MAX_SLUG_LENGTH l).isEmpty = true
    · simpa [he] using hfb
    · simp only [he, if_false]
      show (List.take MAX_SLUG_LENGTH l).length ≤ MAX_SLUG_LENGTH
      exact List.length_take_le _ _
  have hpath : ∀ path : List Char, (pathToSlug path).length ≤ MAX_SLUG_LENGTH := by
    intro path
    unfold pathToSlug
    exact key _ "index" (by decide)
  have htitle : ∀ t : String, (titleToSlug t).length ≤ MAX_SLUG_LENGTH := by
    intro t
    unfold titleToSlug
    exact key _ "page" (by decide)
  unfold generateSlugFromUrl
  cases parseUrlPathname url with
  | some path => exact hpath path
  | none =>
      cases title with
      | some t => exact htitle t
      | none => decide

/-- C5: `handleExecJS` validates before evaluating — missing `code` yields
`Code is required`; non-string `code` yields `Code must be a string`; code
longer than 10000 characters fails with a message containing `10000`; code of
length at most 10000 that evaluates without throwing yields the result and
its `typeof`; a thrown `Error` surfaces its message, and a thrown non-`Error`
value yields the generic `Execution failed`. -/
theorem exec_js_validation (evalJs : String → EvalOutcome) (now : Nat) :
    (handleExecJS evalJs .missing now
      = { success := false, data := none, error := some "Code is required"
          timestamp := now }) ∧
    (handleExecJS evalJs .nonString now
      = { success := false, data := none, error := some "Code must be a string"
          timestamp := now }) ∧
    (∀ s : String, MAX_CODE_LENGTH < s.length →
      (handleExecJS evalJs (.strCode s) now).success = false ∧
      ∃ e, (handleExecJS evalJs (.strCode s) now).error = some e ∧
        strIncludes e "10000" = true) ∧
    (∀ s v, s.length ≤ MAX_CODE_LENGTH → evalJs s = .ok v →
      handleExecJS evalJs (.strCode s) now
        = { success := true, data := some { result := v, type := jsTypeof v }
            error := none, timestamp := now }) ∧
    (∀ s msg, s.length ≤ MAX_CODE_LENGTH → evalJs s = .errorThrown msg →
      handleExecJS evalJs (.strCode s) now
        = { success := false, data := none, error := some msg
            timestamp := now }) ∧
    (∀ s, s.length ≤ MAX_CODE_LENGTH → evalJs s = .nonErrorThrown →
      handleExecJS evalJs (.strCode s) now
        = { success := false, data := none, error := some "Execution failed"
            timestamp := now }) := by
  refine ⟨rfl, rfl, ?_, ?_, ?_, ?_⟩
  · intro s hs
    have hgt : s.length > MAX_CODE_LENGTH := hs
    refine ⟨?_, "Code exceeds maximum length (10000)", ?_, by decide⟩ <;>
      simp [handleExecJS, hgt]
  · intro s v hs he
    have hngt : ¬s.length > MAX_CODE_LENGTH := by omega
    simp [handleExecJS, hngt, he]
  · intro s msg hs he
    have hngt : ¬s.length > MAX_CODE_LENGTH := by omega
    simp [handleExecJS, hngt, he]
  · intro s hs he
    have hngt : ¬s.length > MAX_CODE_LENGTH := by omega
    simp [handleExecJS, hngt, he]

/-- C5 witness: the boundary and each validation branch at concrete inputs. -/
theorem exec_js_validation_witness :
    handleExecJS (fun _ => EvalOutcome.ok .undef) (.strCode "undefined") 0
      = { success := true
          data := some { result := .undef, type := "undefined" }
          error := none, timestamp := 0 } :=
  (exec_js_validation (fun _ => EvalOutcome.ok .undef) 0).2.2.2.1 "undefined"
    .undef (by decide) rfl

/-- C1: on `server-info`, an `appPort` that is null or equal to the bridge's
own app port verifies the connection — `isConnected()` becomes true, the
server info (with its `projectDir`) is stored, the attempt counter resets to
0 — while a non-null, non-matching `appPort` closes the socket, leaves the
bridge unverified, and schedules a connection to the next sequential port
after the short fixed delay. -/
theorem server_info_verification (st : BridgeState) (info : BridgeServerInfo) :
    ((info.appPort = none ∨ info.appPort = some st.appPort) →
      (bridgeHandleServerInfo st info).1.wsVerified = true ∧
      bridgeIsConnected (bridgeHandleServerInfo st info).1 = true ∧
      bridgeGetServerInfo (bridgeHandleServerInfo st info).1 = some info ∧
      (bridgeHandleServerInfo st info).1.reconnectAttempts = 0 ∧
      (bridgeHandleServerInfo st info).2 = [.notifyListeners]) ∧
    (∀ p, info.appPort = some p → p ≠ st.appPort → st.wsVerified = false →
      (bridgeHandleServerInfo st info).1.wsVerified = false ∧
      (bridgeHandleServerInfo st info).2
        = [.closeSocket,
           .schedule PORT_RETRY_DELAY_MS
             (.connectNextPort (st.candidatePort + 1))]) := by
  constructor
  · intro h
    simp [bridgeHandleServerInfo, bridgeIsConnected, bridgeGetServerInfo, h]
  · intro p hp hne hv
    have hcond : ¬(info.appPort = none ∨ info.appPort = some st.appPort) := by
      simp [hp]
      exact hne
    simp [bridgeHandleServerInfo, hcond, hv]

/-- C1 witness: a matching `server-info` on a fresh bridge. -/
theorem server_info_verification_witness :
    (bridgeHandleServerInfo (mkBridgeState 3000 9223)
        ⟨some 3000, 9223, "proj", 0⟩).1.wsVerified = true ∧
    bridgeIsConnected (bridgeHandleServerInfo (mkBridgeState 3000 9223)
        ⟨some 3000, 9223, "proj", 0⟩).1 = true ∧
    bridgeGetServerInfo (bridgeHandleServerInfo (mkBridgeState 3000 9223)
        ⟨some 3000, 9223, "proj", 0⟩).1 = some ⟨some 3000, 9223, "proj", 0⟩ ∧
    (bridgeHandleServerInfo (mkBridgeState 3000 9223)
        ⟨some 3000, 9223, "proj", 0⟩).1.reconnectAttempts = 0 ∧
    (bridgeHandleServerInfo (mkBridgeState 3000 9223)
        ⟨some 3000, 9223, "proj", 0⟩).2 = [.notifyListeners] :=
  (server_info_verification (mkBridgeState 3000 9223)
    ⟨some 3000, 9223, "proj", 0⟩).1 (Or.inr rfl)

theorem bridgeHandleMessage_state_of_not_serverInfo (st : BridgeState)
    (m : InboundMsg) (hm : m.isServerInfo = false) :
    (bridgeHandleMessage st m).1 = st := by
  cases m with
  | serverInfo info => simp [InboundMsg.isServerInfo] at hm
  | command cmdType known =>
      by_cases hv : st.wsVerified <;> simp [bridgeHandleMessage, hv]
  | malformed parseError =>
      by_cases hv : st.wsVerified <;> simp [bridgeHandleMessage, hv]

theorem bridgeHandleMessage_silent_of_unverified (st : BridgeState)
    (m : InboundMsg) (hv : st.wsVerified = false) :
    handlersRun (bridgeHandleMessage st m).2 = [] ∧
    sentFrames (bridgeHandleMessage st m).2 = [] := by
  cases m with
  | serverInfo info =>
      by_cases h : info.appPort = none ∨ info.appPort = some st.appPort <;>
        simp [bridgeHandleMessage, bridgeHandleServerInfo, h, handlersRun,
          sentFrames]
  | command cmdType known => simp [bridgeHandleMessage, hv, handlersRun, sentFrames]
  | malformed parseError => simp [bridgeHandleMessage, hv, handlersRun, sentFrames]

theorem bridgeRun_silent_of_unverified (st : BridgeState) (ms : List InboundMsg)
    (hv : st.wsVerified = false) (hms : ∀ m ∈ ms, m.isServerInfo = false) :
    handlersRun (bridgeRun st (ms.map .msg)).2 = [] ∧
    sentFrames (bridgeRun st (ms.map .msg)).2 = [] := by
  induction ms generalizing st with
  | nil => simp [bridgeRun, handlersRun, sentFrames]
  | cons m ms ih =>
      have hm : m.isServerInfo = false := hms m (by simp)
      have hstate : (bridgeHandleMessage st m).1 = st :=
        bridgeHandleMessage_state_of_not_serverInfo st m hm
      have hstep := bridgeHandleMessage_silent_of_unverified st m hv
      have hrest := ih (bridgeHandleMessage st m).1 (by rw [hstate]; exact hv)
        (fun m' hm' => hms m' (by simp [hm']))
      simp only [List.map_cons, bridgeRun, bridgeStep]
      constructor
      · simp [handlersRun, List.filterMap_append] at hstep hrest ⊢
        exact ⟨hstep.1, hrest.1⟩
      · simp [sentFrames, List.filterMap_append] at hstep hrest ⊢
        exact ⟨hstep.2, hrest.2⟩

/-- C2: while the connection is unverified no inbound message runs a command
handler or sends a response frame; over a whole open-then-messages trace that
never sees a `server-info`, the only outbound frame is the
`browser-client-ready` sent on open, and no handler ever runs. -/
theorem pre_verification_isolation (st : BridgeState) (m : InboundMsg)
    (ms : List InboundMsg) (hv : st.wsVerified = false) :
    (handlersRun (bridgeHandleMessage st m).2 = [] ∧
     sentFrames (bridgeHandleMessage st m).2 = []) ∧
    ((∀ m' ∈ ms, m'.isServerInfo = false) →
      sentFrames (bridgeRun st (.socketOpen :: ms.map .msg)).2
        = [.browserClientReady] ∧
      handlersRun (bridgeRun st (.socketOpen :: ms.map .msg)).2 = []) := by
  refine ⟨bridgeHandleMessage_silent_of_unverified st m hv, ?_⟩
  intro hms
  have hrest := bridgeRun_silent_of_unverified st ms hv hms
  simp only [bridgeRun, bridgeStep, bridgeHandleOpen]
  constructor
  · simp [sentFrames, List.filterMap_append] at hrest ⊢
    exact hrest.2
  · simp [handlersRun, List.filterMap_append] at hrest ⊢
    exact hrest.1

/-- C2 witness: a fresh bridge receiving two commands before any
`server-info`. -/
theorem pre_verification_isolation_witness :
    (handlersRun (bridgeHandleMessage (mkBridgeState 3000 9223)
        (.command "get-logs" true)).2 = [] ∧
     sentFrames (bridgeHandleMessage (mkBridgeState 3000 9223)
        (.command "get-logs" true)).2 = []) ∧
    sentFrames (bridgeRun (mkBridgeState 3000 9223)
        (.socketOpen :: ([InboundMsg.command "get-logs" true,
          InboundMsg.malformed "parse error"].map .msg))).2
      = [.browserClientReady] ∧
    handlersRun (bridgeRun (mkBridgeState 3000 9223)
        (.socketOpen :: ([InboundMsg.command "get-logs" true,
          InboundMsg.malformed "parse error"].map .msg))).2 = [] := by
  have h := pre_verification_isolation (mkBridgeState 3000 9223)
    (.command "get-logs" true)
    [InboundMsg.command "get-logs" true, InboundMsg.malformed "parse error"] rfl
  exact ⟨h.1, h.2 (by decide)⟩

/-- C3: the lifecycle is idempotent and total — a second `destroy()` changes
nothing and requests no further effects (and `destroy` itself is a total
function, so calling it with or without a prior `init()`, or twice, cannot
throw); after `destroy()`, `isConnected()` is false and `getServerInfo()` is
null; and a second `init()` while a verified socket exists opens no second
socket and requests no effects. -/
theorem lifecycle_idempotent (st : BridgeState) :
    ((bridgeDestroy (bridgeDestroy st).1).1 = (bridgeDestroy st).1 ∧
     (bridgeDestroy (bridgeDestroy st).1).2 = []) ∧
    bridgeIsConnected (bridgeDestroy st).1 = false ∧
    bridgeGetServerInfo (bridgeDestroy st).1 = none ∧
    (∀ p, st.ws = some p → st.wsVerified = true → bridgeInit st = (st, [])) := by
  refine ⟨⟨rfl, rfl⟩, rfl, rfl, ?_⟩
  intro p hws hv
  by_cases hd : st.destroyed <;> simp [bridgeInit, hd, hws]

/-- C3 witness: destroy on a fresh, never-initialized bridge, and `init()` on
a verified one. -/
theorem lifecycle_idempotent_witness :
    ((bridgeDestroy (bridgeDestroy (mkBridgeState 3000 9223)).1).1
        = (bridgeDestroy (mkBridgeState 3000 9223)).1 ∧
     (bridgeDestroy (bridgeDestroy (mkBridgeState 3000 9223)).1).2 = []) ∧
    bridgeIsConnected (bridgeDestroy (mkBridgeState 3000 9223)).1 = false ∧
    bridgeGetServerInfo (bridgeDestroy (mkBridgeState 3000 9223)).1 = none ∧
    bridgeInit { mkBridgeState 3000 9223 with
        ws := some 9223, wsVerified := true, connected := true }
      = ({ mkBridgeState 3000 9223 with
            ws := some 9223, wsVerified := true, connected := true }, []) := by
  have h := lifecycle_idempotent { mkBridgeState 3000 9223 with
    ws := some 9223, wsVerified := true, connected := true }
  have h0 := lifecycle_idempotent (mkBridgeState 3000 9223)
  exact ⟨h0.1, h0.2.1, h0.2.2.1, h.2.2.2 9223 rfl rfl⟩

/-- C4: the backoff delay before attempt `N + 1` is monotonically
non-decreasing in `N` up to the fixed cap; once the attempt counter has
reached the maximum of 10, a close schedules no further reconnect; below the
maximum a verified close schedules exactly one backoff reconnect with that
delay and increments the counter; and a close of a never-verified socket
schedules no backoff reconnect. -/
theorem reconnect_backoff_policy (n m : Nat) (st : BridgeState)
    (code : Option Nat) :
    (n ≤ m → reconnectDelay n ≤ reconnectDelay m) ∧
    reconnectDelay n ≤ MAX_RECONNECT_DELAY_MS ∧
    (st.destroyed = false → code ≠ some 4001 → st.wsVerified = true →
      MAX_RECONNECT_ATTEMPTS ≤ st.reconnectAttempts →
      scheduledTasks (bridgeHandleClose st code).2 = []) ∧
    (st.destroyed = false → code ≠ some 4001 → st.wsVerified = true →
      st.reconnectAttempts < MAX_RECONNECT_ATTEMPTS →
      scheduledTasks (bridgeHandleClose st code).2
        = [(reconnectDelay st.reconnectAttempts, .reconnectBackoff)] ∧
      (bridgeHandleClose st code).1.reconnectAttempts
        = st.reconnectAttempts + 1) ∧
    (st.wsVerified = false →
      ∀ d, (d, TimerTask.reconnectBackoff) ∉
        scheduledTasks (bridgeHandleClose st code).2) := by
  refine ⟨?_, Nat.min_le_right _ _, ?_, ?_, ?_⟩
  · intro hnm
    unfold reconnectDelay
    exact min_le_min (Nat.mul_le_mul_left _ (Nat.pow_le_pow_right (by norm_num) hnm)) le_rfl
  · intro hd hc hv hmax
    have hlt : ¬st.reconnectAttempts < MAX_RECONNECT_ATTEMPTS := by omega
    simp [bridgeHandleClose, hd, hc, hv, hlt, scheduledTasks]
  · intro hd hc hv hlt
    simp [bridgeHandleClose, hd, hc, hv, hlt, scheduledTasks]
  · intro hv d
    by_cases hd : st.destroyed
    · simp [bridgeHandleClose, hd, scheduledTasks]
    · by_cases hc : code = some 4001
      · simp [bridgeHandleClose, hd, hc, scheduledTasks]
      · simp [bridgeHandleClose, hd, hc, hv, scheduledTasks]

/-- C4 witness: the first verified close of a fresh verified bridge schedules
one backoff reconnect at the base delay, and the delay sequence is
non-decreasing at 3 ≤ 5. -/
theorem reconnect_backoff_policy_witness :
    (reconnectDelay 3 ≤ reconnectDelay 5) ∧
    scheduledTasks (bridgeHandleClose
        { mkBridgeState 3000 9223 with
            ws := some 9223, wsVerified := true, connected := true } none).2
      = [(reconnectDelay 0, .reconnectBackoff)] ∧
    (bridgeHandleClose
        { mkBridgeState 3000 9223 with
            ws := some 9223, wsVerified := true, connected := true } none).1.reconnectAttempts
      = 1 := by
  have h := reconnect_backoff_policy 3 5
    { mkBridgeState 3000 9223 with
        ws := some 9223, wsVerified := true, connected := true } none
  have h4 := h.2.2.2.1 rfl (by decide) rfl (by decide)
  exact ⟨h.1 (by decide), h4.1, h4.2⟩
